import Mathlib

/-!
Verification of the PolyglotAI conversation kernel.

This file gives a shallow embedding of the domain kernel of the
language-tutoring chat backend: the value objects ( `Language`, `Role`,
`Status`, `TeacherProfile` ), the `ChatMessage` entity and `Conversation`
aggregate from `src/core/domain/entities/conversation.py`, the in-memory
conversation repository from
`tests/doubles/fakes/in_memory_conversation_repository.py`, and the
application use cases from `src/application/commands/conversations.py` and
`src/application/queries/conversations.py`.

Python strings are modelled as Lean `String` over their code points;
`str.strip` and `str.lower` are modelled explicitly ( `pyStrip`, `pyLower` ),
timestamps and UUIDs as naturals, exceptions as an explicit error type
threaded through `Except`, and in-place mutation as explicit state passing:
an operation that can both raise and mutate returns the result together with
the state of the object after the call.
-/

namespace PolyglotAI

/-- UUIDs are opaque identifiers; only equality matters. -/
abbrev UUID := Nat

/-- Timestamps ( Python `datetime` ) are opaque totally ordered instants. -/
abbrev Timestamp := Nat

/-- Python `str.strip()` : drop leading and trailing whitespace code points. -/
def pyStrip (s : String) : String :=
  ⟨((s.data.dropWhile Char.isWhitespace).reverse.dropWhile Char.isWhitespace).reverse⟩

/-- Python `str.lower()` : lowercase every code point. -/
def pyLower (s : String) : String :=
  ⟨s.data.map Char.toLower⟩

/-- Python `str.isalpha()` : non-empty and every code point alphabetic. -/
def pyIsAlpha (s : String) : Bool :=
  !s.data.isEmpty && s.data.all Char.isAlpha

/-- Truthiness of a Python string : non-empty. -/
def pyTruthy (s : String) : Bool :=
  !s.data.isEmpty

/--
Union of the member sets of the two `Role` enums present in the source:
`src/core/domain/value_objects/chat_options.py` defines STUDENT / TEACHER,
while `src/core/domain/value_objects/role.py` defines SYSTEM / USER /
ASSISTANT. Python is duck-typed, so a message can carry any of these values;
keeping one Lean type for both enums lets the embedding state which members
each module actually resolves.
-/
inductive Role where
  | student
  | teacher
  | system
  | user
  | assistant
deriving DecidableEq, Repr

/-- `Role.is_student` from `chat_options.py`. -/
def Role.is_student (r : Role) : Bool := r = Role.student

/-- `Role.is_teacher` from `chat_options.py`. -/
def Role.is_teacher (r : Role) : Bool := r = Role.teacher

/--
Attribute access `Role.<NAME>` on the `Role` enum that
`src/core/domain/value_objects/__init__.py` actually exports ( line 15:
`from .role import Role` , i.e. the SYSTEM / USER / ASSISTANT enum of
`role.py` ). Returns `none` when the member does not exist, which in Python
raises `AttributeError`.
-/
def exportedRoleMember (name : String) : Option Role :=
  if name = "SYSTEM" then some Role.system
  else if name = "USER" then some Role.user
  else if name = "ASSISTANT" then some Role.assistant
  else none

/-- `Status` from `src/core/domain/value_objects/status.py`. -/
inductive Status where
  | active
  | archived
  | deleted
deriving DecidableEq, Repr

/-- `Status.is_active` . -/
def Status.is_active (s : Status) : Bool := s = Status.active

/-- `Status.is_writable` : only ACTIVE conversations accept mutation. -/
def Status.is_writable (s : Status) : Bool := s.is_active

/-- The string value carried by each `Status` enum member. -/
def Status.value : Status → String
  | Status.active => "active"
  | Status.archived => "archived"
  | Status.deleted => "deleted"

/-- `CreativityLevel` from `chat_options.py` / `teacher_profile.py`. -/
inductive CreativityLevel where
  | strict
  | controlled
  | moderate
  | expressive
deriving DecidableEq, Repr

/-- `GenerationStyle` from `chat_options.py` / `teacher_profile.py`. -/
inductive GenerationStyle where
  | practice
  | explanatory
  | corrective
  | conversational
deriving DecidableEq, Repr

/-- `TeacherProfile` value object. -/
structure TeacherProfile where
  creativity_level : CreativityLevel
  generation_style : GenerationStyle
deriving DecidableEq, Repr

/-- `Language` value object from `src/core/domain/value_objects/language.py`. -/
structure Language where
  code : String
deriving DecidableEq, Repr

/--
The error taxonomy of `src/core/exceptions`, one constructor per exception
class reachable from the embedded code, plus two constructors for Python
runtime errors the code actually raises: `attributeError` for a failed enum
member access, and `typeError` for calling a constructor with missing
required arguments. `invalidChatMessageContent` mirrors
`InvalidChatMessageContentError`, whose `__init__`
( `src/core/exceptions/business.py` line 78 ) requires `(message_id, role)`;
the one raising site, `conversation.py` line 109, passes no arguments, so
that class is never successfully constructed at runtime — the call raises
`TypeError` instead.
-/
inductive Err where
  | invalidLanguageIsoCode (code : String)
  | invalidLanguagePair (native target : String)
  | emptyConversationTitle (id : UUID)
  | conversationTitleTooLong (id : UUID) (len max_len : Nat)
  | invalidChatMessageContent (message_id : UUID) (role : String)
  | conversationNotWritable (id : UUID) (status : String)
  | resourceNotFound (resource_type : String) (resource_id : UUID)
  | teacherResponseError (cause : String)
  | attributeError (name : String)
  | typeError (message : String)
deriving DecidableEq, Repr

/--
The error actually raised by `ChatMessage._validate_content` on empty or
whitespace-only content: `conversation.py` line 109 calls
`InvalidChatMessageContentError()` with zero arguments, but that class
requires `(message_id, role)`, so Python raises `TypeError` at the
construction of the exception.
-/
def chatMessageContentCrash : Err :=
  Err.typeError
    "InvalidChatMessageContentError.__init__ missing 2 required positional arguments: message_id and role"

/--
`Language.__post_init__` : normalize to `code.lower().strip()` and require
the result to be exactly two alphabetic characters, else raise
`InvalidLanguageIsoCodeError`. Construction is modelled as a fallible
factory returning the validated frozen value.
-/
def Language.create (code : String) : Except Err Language :=
  let normalized := pyStrip (pyLower code)
  if !(pyIsAlpha normalized) || normalized.length ≠ 2 then
    Except.error (Err.invalidLanguageIsoCode normalized)
  else
    Except.ok ⟨normalized⟩

/-- `ChatMessage` entity ( `conversation.py` lines 25-121 ). -/
structure ChatMessage where
  id : UUID
  created_at : Timestamp
  role : Role
  content : String
deriving DecidableEq, Repr

/--
`ChatMessage._validate_content` : if `not content or not content.strip()`
the source attempts `raise InvalidChatMessageContentError()`, but that
constructor requires `(message_id, role)`, so the call itself raises
`TypeError` ( `chatMessageContentCrash` ) — the domain validation error is
never actually constructed on this path.
-/
def ChatMessage.validate_content (content : String) : Except Err Unit :=
  if !(pyTruthy content) || !(pyTruthy (pyStrip content)) then
    Except.error chatMessageContentCrash
  else
    Except.ok ()

/--
`ChatMessage.create_new` factory; `__post_init__` validates the content.
-/
def ChatMessage.create_new (id : UUID) (role : Role) (content : String)
    (now : Timestamp) : Except Err ChatMessage := do
  ChatMessage.validate_content content
  pure { id := id, created_at := now, role := role, content := content }

/-- `Conversation` aggregate root ( `conversation.py` lines 124-331 ). -/
structure Conversation where
  id : UUID
  student_id : UUID
  created_at : Timestamp
  last_activity_at : Timestamp
  native_lang : Language
  target_lang : Language
  title : String
  status : Status
  messages : List ChatMessage
deriving DecidableEq, Repr

/-- `Conversation.message_count` accessor. -/
def Conversation.message_count (c : Conversation) : Nat :=
  c.messages.length

/--
`Conversation.create_new` : reject an identical language pair, then reject a
title that is empty after stripping or longer than 100 characters, and
otherwise produce an ACTIVE conversation with no messages, the stripped
title, and `created_at = last_activity_at = now`.
-/
def Conversation.create_new (id student_id : UUID) (title : String)
    (native_lang target_lang : Language) (now : Timestamp) :
    Except Err Conversation :=
  if native_lang = target_lang then
    Except.error (Err.invalidLanguagePair native_lang.code target_lang.code)
  else
    let cleaned_title := pyStrip title
    if !(pyTruthy cleaned_title) then
      Except.error (Err.emptyConversationTitle id)
    else if cleaned_title.length > 100 then
      Except.error (Err.conversationTitleTooLong id cleaned_title.length 100)
    else
      Except.ok
        { id := id
          student_id := student_id
          created_at := now
          last_activity_at := now
          native_lang := native_lang
          target_lang := target_lang
          title := cleaned_title
          status := Status.active
          messages := [] }

/-- `Conversation.touch` : update the last-activity timestamp only. -/
def Conversation.touch (c : Conversation) (now : Timestamp) : Conversation :=
  { c with last_activity_at := now }

/--
`Conversation.add_message` : raise `ConversationNotWritableError` unless the
status is writable; otherwise `touch(now)` first ( as the source does, before
the message is created ), then create the message ( which may raise on empty
content ) and append it. The returned conversation is the state of the
aggregate after the call, whether or not it raised.
-/
def Conversation.add_message (c : Conversation) (new_message_id : UUID)
    (now : Timestamp) (role : Role) (content : String) :
    Except Err ChatMessage × Conversation :=
  if !c.status.is_writable then
    (Except.error (Err.conversationNotWritable c.id c.status.value), c)
  else
    let c := c.touch now
    match ChatMessage.create_new new_message_id role content now with
    | Except.error e => (Except.error e, c)
    | Except.ok message =>
      (Except.ok message, { c with messages := c.messages ++ [message] })

/-- `Conversation.archive` : unconditionally set ARCHIVED, then touch. -/
def Conversation.archive (c : Conversation) (now : Timestamp) : Conversation :=
  ({ c with status := Status.archived }).touch now

/-- `Conversation.delete` : unconditionally set DELETED, then touch. -/
def Conversation.delete (c : Conversation) (now : Timestamp) : Conversation :=
  ({ c with status := Status.deleted }).touch now

/--
`Conversation.modify_title` : same writability and title validation as
creation; on success store the stripped title and touch.
-/
def Conversation.modify_title (c : Conversation) (new_title : String)
    (now : Timestamp) : Except Err Unit × Conversation :=
  if !c.status.is_writable then
    (Except.error (Err.conversationNotWritable c.id c.status.value), c)
  else
    let cleaned_title := pyStrip new_title
    if !(pyTruthy cleaned_title) then
      (Except.error (Err.emptyConversationTitle c.id), c)
    else if cleaned_title.length > 100 then
      (Except.error (Err.conversationTitleTooLong c.id cleaned_title.length 100), c)
    else
      (Except.ok (), ({ c with title := cleaned_title }).touch now)

/--
Storage of the in-memory conversation repository
( `tests/doubles/fakes/in_memory_conversation_repository.py` ): the values of
`self._storage` in insertion order. The dict is keyed by conversation id, so
ids are unique in a reachable storage.
-/
abbrev Repo := List Conversation

/-- `find_by_id` : `None` when the id is absent. -/
def Repo.find_by_id (repo : Repo) (id : UUID) : Option Conversation :=
  repo.find? (fun c => c.id = id)

/--
`save` : `self._storage[conversation.id] = conversation` — replace in place
when the key exists, append otherwise.
-/
def Repo.save (repo : Repo) (conversation : Conversation) : Repo :=
  if repo.any (fun c => c.id = conversation.id) then
    repo.map (fun c => if c.id = conversation.id then conversation else c)
  else
    repo ++ [conversation]

/--
`ConversationRepository.get_by_id` ( the derived convenience of
`src/core/ports/repositories/conversation.py` ): `find_by_id`, raising
`ResourceNotFoundError` when absent.
-/
def Repo.get_by_id (repo : Repo) (id : UUID) : Except Err Conversation :=
  match Repo.find_by_id repo id with
  | none => Except.error (Err.resourceNotFound "Conversation" id)
  | some c => Except.ok c

/-- `ConversationSummary` read model ( `application/dtos/conversations.py` ). -/
structure ConversationSummary where
  conversation_id : UUID
  title : String
  created_at : Timestamp
  last_activity_at : Timestamp
  status : String
deriving DecidableEq, Repr

/--
`InMemoryConversationRepository._to_summary` : project a conversation to the
read model; `conversation.title or "Conversation"` falls back when the title
is empty.
-/
def Repo.to_summary (conversation : Conversation) : ConversationSummary :=
  { conversation_id := conversation.id
    title := if pyTruthy conversation.title then conversation.title else "Conversation"
    created_at := conversation.created_at
    last_activity_at := conversation.last_activity_at
    status := conversation.status.value }

/--
`InMemoryConversationRepository.get_student_conversations` : filter the
storage by owner and allowed statuses ( ACTIVE, plus ARCHIVED when
`include_archived` ), stable-sort newest-created-first, slice
`[offset : offset + limit]`, and project to summaries. DELETED conversations
are never included. `limit` and `offset` are the non-negative case of Python
slicing.
-/
def Repo.get_student_conversations (repo : Repo) (student_id : UUID)
    (limit offset : Nat) (include_archived : Bool) : List ConversationSummary :=
  let allowed : List Status :=
    if include_archived then [Status.active, Status.archived] else [Status.active]
  let student_conversations :=
    repo.filter (fun conv => conv.student_id = student_id && allowed.contains conv.status)
  let sorted :=
    student_conversations.mergeSort (fun a b => decide (b.created_at ≤ a.created_at))
  let paginated := (sorted.drop offset).take limit
  paginated.map Repo.to_summary

/-- `CreateConversationCommand` DTO; `title` is `None` when absent. -/
structure CreateConversationCommand where
  student_id : UUID
  title : Option String
  native_lang : Language
  target_lang : Language
deriving DecidableEq, Repr

/-- `CreateConversationResult` DTO. -/
structure CreateConversationResult where
  conversation_id : UUID
deriving DecidableEq, Repr

/--
`CreateConversationUseCase.execute` : substitute the default title
`"New Conversation"` when the command title is falsy or whitespace-only
( `command_dto.title if command_dto.title and command_dto.title.strip() else
"New Conversation"` ), create the entity ( propagating its validation
failures ), persist it, and return the new id. The generated uuid and the
clock reading are passed in explicitly.
-/
def CreateConversationUseCase.execute (repo : Repo) (conversation_id : UUID)
    (now : Timestamp) (command_dto : CreateConversationCommand) :
    Except Err (CreateConversationResult × Repo) :=
  let conversation_title :=
    match command_dto.title with
    | some t => if pyTruthy t && pyTruthy (pyStrip t) then t else "New Conversation"
    | none => "New Conversation"
  match Conversation.create_new conversation_id command_dto.student_id
      conversation_title command_dto.native_lang command_dto.target_lang now with
  | Except.error e => Except.error e
  | Except.ok conversation =>
    Except.ok (⟨conversation_id⟩, Repo.save repo conversation)

/-- `SendMessageCommand` DTO. -/
structure SendMessageCommand where
  conversation_id : UUID
  student_message : String
  creativity_level : CreativityLevel
  generation_style : GenerationStyle
deriving DecidableEq, Repr

/-- `SendMessageResult` DTO. -/
structure SendMessageResult where
  message_id : UUID
  student_message_id : UUID
  teacher_message : String
deriving DecidableEq, Repr

/-- One invocation of the response-generation port, as observed by a test double. -/
structure GenCall where
  history : List ChatMessage
  teacher_profile : TeacherProfile
  native_lang : Language
  target_lang : Language
deriving DecidableEq, Repr

/--
The response-generation port ( `ChatProvider.get_teacher_response` ), modelled
as a pure function from the call arguments to either the generated text or a
generation error.
-/
abbrev ChatProvider :=
  List ChatMessage → TeacherProfile → Language → Language → Except Err String

/--
`SendMessageUseCase.execute` with the role identifiers `Role.STUDENT` and
`Role.TEACHER` resolved on the STUDENT / TEACHER enum of `chat_options.py` —
the enum those identifiers name and the one the repository's own test
fixtures use. The orchestration follows
`src/application/commands/conversations.py` lines 128-202: load the
conversation ( not-found propagates ), append the student message, snapshot
the history and profile, call the generation port, append the teacher
message, persist once, and return the ids with the teacher text. The second
component of the result collects every generation-port invocation.
-/
def SendMessageUseCase.execute (provider : ChatProvider) (repo : Repo)
    (student_message_id : UUID) (now_student : Timestamp)
    (teacher_message_id : UUID) (now_teacher : Timestamp)
    (command_dto : SendMessageCommand) :
    Except Err (SendMessageResult × Repo) × List GenCall :=
  match Repo.get_by_id repo command_dto.conversation_id with
  | Except.error e => (Except.error e, [])
  | Except.ok conversation =>
    match conversation.add_message student_message_id now_student Role.student
        command_dto.student_message with
    | (Except.error e, _) => (Except.error e, [])
    | (Except.ok _, conversation) =>
      let history := conversation.messages
      let teacher_profile : TeacherProfile :=
        ⟨command_dto.creativity_level, command_dto.generation_style⟩
      let call : GenCall :=
        ⟨history, teacher_profile, conversation.native_lang, conversation.target_lang⟩
      match provider history teacher_profile conversation.native_lang
          conversation.target_lang with
      | Except.error e => (Except.error e, [call])
      | Except.ok teacher_response =>
        match conversation.add_message teacher_message_id now_teacher Role.teacher
            teacher_response with
        | (Except.error e, _) => (Except.error e, [call])
        | (Except.ok _, conversation) =>
          (Except.ok (⟨teacher_message_id, student_message_id, teacher_response⟩,
            Repo.save repo conversation), [call])

/--
`SendMessageUseCase.execute` as actually wired: the module imports `Role`
from `src.core.domain`, which re-exports the SYSTEM / USER / ASSISTANT enum
of `role.py` ( `value_objects/__init__.py` line 15 ), so the attribute
accesses `Role.STUDENT` and `Role.TEACHER` are looked up on that enum via
`exportedRoleMember` and raise `AttributeError` when the member is missing.
Everything else is as in `SendMessageUseCase.execute`.
-/
def SendMessageUseCase.executeWired (provider : ChatProvider) (repo : Repo)
    (student_message_id : UUID) (now_student : Timestamp)
    (teacher_message_id : UUID) (now_teacher : Timestamp)
    (command_dto : SendMessageCommand) :
    Except Err (SendMessageResult × Repo) × List GenCall :=
  match Repo.get_by_id repo command_dto.conversation_id with
  | Except.error e => (Except.error e, [])
  | Except.ok conversation =>
    match exportedRoleMember "STUDENT" with
    | none => (Except.error (Err.attributeError "STUDENT"), [])
    | some student_role =>
      match conversation.add_message student_message_id now_student student_role
          command_dto.student_message with
      | (Except.error e, _) => (Except.error e, [])
      | (Except.ok _, conversation) =>
        let history := conversation.messages
        let teacher_profile : TeacherProfile :=
          ⟨command_dto.creativity_level, command_dto.generation_style⟩
        let call : GenCall :=
          ⟨history, teacher_profile, conversation.native_lang, conversation.target_lang⟩
        match provider history teacher_profile conversation.native_lang
            conversation.target_lang with
        | Except.error e => (Except.error e, [call])
        | Except.ok teacher_response =>
          match exportedRoleMember "TEACHER" with
          | none => (Except.error (Err.attributeError "TEACHER"), [call])
          | some teacher_role =>
            match conversation.add_message teacher_message_id now_teacher
                teacher_role teacher_response with
            | (Except.error e, _) => (Except.error e, [call])
            | (Except.ok _, conversation) =>
              (Except.ok (⟨teacher_message_id, student_message_id, teacher_response⟩,
                Repo.save repo conversation), [call])

/-- `DeleteConversationCommand` DTO. -/
structure DeleteConversationCommand where
  conversation_id : UUID
  student_id : UUID
deriving DecidableEq, Repr

/--
`DeleteConversationUseCase.execute` : load the conversation ( not-found
propagates ), raise the same `ResourceNotFoundError` when the requester is
not the owner, and otherwise soft-delete and persist. The repository state
after the call is returned alongside the result.
-/
def DeleteConversationUseCase.execute (repo : Repo) (now : Timestamp)
    (command : DeleteConversationCommand) : Except Err Unit × Repo :=
  match Repo.get_by_id repo command.conversation_id with
  | Except.error e => (Except.error e, repo)
  | Except.ok conversation =>
    if conversation.student_id ≠ command.student_id then
      (Except.error (Err.resourceNotFound "Conversation" command.conversation_id), repo)
    else
      (Except.ok (), Repo.save repo (conversation.delete now))

/-- Sample language for concrete instances. -/
def langEn : Language := { code := "en" }

/-- Sample language for concrete instances. -/
def langFr : Language := { code := "fr" }

/-- A sample ACTIVE empty conversation. -/
def conv0 : Conversation :=
  { id := 1
    student_id := 10
    created_at := 5
    last_activity_at := 5
    native_lang := langEn
    target_lang := langFr
    title := "Chat"
    status := Status.active
    messages := [] }

/-- A sample student message. -/
def msg1 : ChatMessage :=
  { id := 101, created_at := 1, role := Role.student, content := "Bonjour!" }

/-- A sample teacher message. -/
def msg2 : ChatMessage :=
  { id := 102, created_at := 2, role := Role.teacher, content := "Hello!" }

/-- A sample ACTIVE conversation holding two prior messages. -/
def convC1 : Conversation :=
  { id := 7
    student_id := 10
    created_at := 1
    last_activity_at := 2
    native_lang := langFr
    target_lang := langEn
    title := "Lesson"
    status := Status.active
    messages := [msg1, msg2] }

/-- A generation port that always returns the fixed text `t`. -/
def fixedProvider (t : String) : ChatProvider :=
  fun _ _ _ _ => Except.ok t

/-- The student message appended to `convC1` by the sample SendMessage run. -/
def studentMsgC1 : ChatMessage :=
  { id := 103, created_at := 3, role := Role.student, content := "How are you?" }

/-- The teacher message appended to `convC1` by the sample SendMessage run. -/
def teacherMsgC1 : ChatMessage :=
  { id := 104, created_at := 4, role := Role.teacher, content := "Fine!" }

/-- A sample SendMessage command against `convC1`. -/
def cmdC1 : SendMessageCommand :=
  { conversation_id := 7
    student_message := "How are you?"
    creativity_level := CreativityLevel.moderate
    generation_style := GenerationStyle.conversational }

/-- `ListConversationsQuery` DTO. -/
structure ListConversationsQuery where
  student_id : UUID
  limit : Nat
  offset : Nat
deriving DecidableEq, Repr

/--
`ListStudentConversationsUseCase.execute` : delegate to the reader port with
the query's student id, limit and offset ( `include_archived` keeps its
default `False` ).
-/
def ListStudentConversationsUseCase.execute (repo : Repo)
    (query : ListConversationsQuery) : List ConversationSummary :=
  Repo.get_student_conversations repo query.student_id query.limit query.offset false

/-- A Python string is falsy exactly when it is empty. -/
theorem pyTruthy_eq_false_iff (s : String) : pyTruthy s = false ↔ s = "" := by
  unfold pyTruthy
  cases s with
  | mk data =>
    cases data <;> simp [String.ext_iff]

/-- A Python string is truthy exactly when it is non-empty. -/
theorem pyTruthy_eq_true_iff (s : String) : pyTruthy s = true ↔ s ≠ "" := by
  rw [← Bool.not_eq_false, not_iff_not]
  exact pyTruthy_eq_false_iff s

/--
Case analysis of `Conversation.create_new`, shared by several claims: the
language-pair check fires first, then the empty-title check on the stripped
title, then the length check, and otherwise the documented ACTIVE
conversation is returned.
-/
theorem create_new_cases (id student_id : UUID) (title : String)
    (native_lang target_lang : Language) (now : Timestamp) :
    (native_lang = target_lang →
      Conversation.create_new id student_id title native_lang target_lang now
        = Except.error (Err.invalidLanguagePair native_lang.code target_lang.code)) ∧
    (native_lang ≠ target_lang → pyStrip title = "" →
      Conversation.create_new id student_id title native_lang target_lang now
        = Except.error (Err.emptyConversationTitle id)) ∧
    (native_lang ≠ target_lang → (pyStrip title).length > 100 →
      Conversation.create_new id student_id title native_lang target_lang now
        = Except.error (Err.conversationTitleTooLong id (pyStrip title).length 100)) ∧
    (native_lang ≠ target_lang → pyStrip title ≠ "" → (pyStrip title).length ≤ 100 →
      Conversation.create_new id student_id title native_lang target_lang now
        = Except.ok
            { id := id
              student_id := student_id
              created_at := now
              last_activity_at := now
              native_lang := native_lang
              target_lang := target_lang
              title := pyStrip title
              status := Status.active
              messages := [] }) := by
  unfold Conversation.create_new
  refine ⟨?_, ?_, ?_, ?_⟩
  · intro h
    rw [if_pos h]
  · intro h hempty
    rw [if_neg h]
    have ht : pyTruthy (pyStrip title) = false := (pyTruthy_eq_false_iff _).mpr hempty
    simp only [ht, Bool.not_false, if_true]
  · intro h hlen
    rw [if_neg h]
    have hne : pyStrip title ≠ "" := by
      intro hcon
      rw [hcon] at hlen
      simp at hlen
    have ht : pyTruthy (pyStrip title) = true := (pyTruthy_eq_true_iff _).mpr hne
    simp only [ht, Bool.not_true, Bool.false_eq_true, if_false]
    rw [if_pos hlen]
  · intro h hne hlen
    rw [if_neg h]
    have ht : pyTruthy (pyStrip title) = true := (pyTruthy_eq_true_iff _).mpr hne
    simp only [ht, Bool.not_true, Bool.false_eq_true, if_false]
    rw [if_neg (by omega : ¬(pyStrip title).length > 100)]

/--
C4: after `archive(now)` or `delete(now)` every subsequent `add_message`
call, for every role and every content, fails with the not-writable error
( carrying the conversation id and status value ) and leaves the conversation
unchanged — in particular it appends no message, so the statement keeps
applying to all later calls.
-/
theorem claim_C4_add_message_rejected_after_archive_delete
    (c : Conversation) (now : Timestamp) (c' : Conversation)
    (h : c' = c.archive now ∨ c' = c.delete now)
    (id : UUID) (now2 : Timestamp) (role : Role) (content : String) :
    (c'.add_message id now2 role content).1
        = Except.error (Err.conversationNotWritable c'.id c'.status.value) ∧
    (c'.add_message id now2 role content).2 = c' := by
  rcases h with h | h <;> subst h <;>
    simp [Conversation.add_message, Conversation.archive, Conversation.delete,
      Conversation.touch, Status.is_writable, Status.is_active, Status.value]

/-- C4 witness: a concrete archived conversation rejects a concrete message. -/
theorem claim_C4_witness :
    ((conv0.archive 6).add_message 2 9 Role.student "Hi").1
        = Except.error (Err.conversationNotWritable 1 "archived") ∧
    ((conv0.archive 6).add_message 2 9 Role.student "Hi").2 = conv0.archive 6 :=
  claim_C4_add_message_rejected_after_archive_delete conv0 6 (conv0.archive 6)
    (Or.inl rfl) 2 9 Role.student "Hi"

/--
C6: each successful `add_message`, `archive`, `delete`, `modify_title` or
`touch` call leaves `last_activity_at` equal to exactly the `now` argument
passed to that call.
-/
theorem claim_C6_mutations_set_last_activity (c : Conversation) (now : Timestamp) :
    (∀ (id : UUID) (role : Role) (content : String),
      (c.add_message id now role content).1.isOk = true →
      (c.add_message id now role content).2.last_activity_at = now) ∧
    (c.archive now).last_activity_at = now ∧
    (c.delete now).last_activity_at = now ∧
    (∀ new_title : String,
      (c.modify_title new_title now).1.isOk = true →
      (c.modify_title new_title now).2.last_activity_at = now) ∧
    (c.touch now).last_activity_at = now := by
  refine ⟨?_, rfl, rfl, ?_, rfl⟩
  · intro id role content h
    unfold Conversation.add_message at h ⊢
    by_cases hw : c.status.is_writable = true
    · rw [hw]
      simp only [Bool.not_true, Bool.false_eq_true, if_false]
      cases ChatMessage.create_new id role content now <;> simp [Conversation.touch]
    · rw [Bool.not_eq_true] at hw
      rw [hw] at h
      simp [Except.isOk, Except.toBool] at h
  · intro new_title h
    unfold Conversation.modify_title at h ⊢
    by_cases hw : c.status.is_writable = true
    · rw [hw] at h ⊢
      simp only [Bool.not_true, Bool.false_eq_true, if_false] at h ⊢
      by_cases he : pyTruthy (pyStrip new_title) = true
      · rw [he] at h ⊢
        simp only [Bool.not_true, Bool.false_eq_true, if_false] at h ⊢
        by_cases hl : (pyStrip new_title).length > 100
        · rw [if_pos hl] at h
          simp [Except.isOk, Except.toBool] at h
        · rw [if_neg hl] at h ⊢
          simp [Conversation.touch]
      · rw [Bool.not_eq_true] at he
        rw [he] at h
        simp [Except.isOk, Except.toBool] at h
    · rw [Bool.not_eq_true] at hw
      rw [hw] at h
      simp [Except.isOk, Except.toBool] at h

/-- C6 witness: a concrete successful `add_message` stamps its `now`. -/
theorem claim_C6_witness :
    (conv0.add_message 2 9 Role.student "Hi").1.isOk = true ∧
    (conv0.add_message 2 9 Role.student "Hi").2.last_activity_at = 9 :=
  ⟨by decide,
   (claim_C6_mutations_set_last_activity conv0 9).1 2 Role.student "Hi" (by decide)⟩

/--
C2 counterexample: on the ACTIVE conversation `conv0`
( `last_activity_at = 5` ), `add_message` with whitespace-only content does
not fail with the content-validation error: it fails with the `TypeError`
raised while constructing `InvalidChatMessageContentError` with no
arguments; it appends no message, and `last_activity_at` becomes the `now`
of the failed call ( 9 ), not its prior value ( 5 ) — the source touches the
aggregate before creating the message.
-/
theorem claim_C2_counterexample :
    (conv0.add_message 2 9 Role.student "   ").1
        = Except.error chatMessageContentCrash ∧
    (conv0.add_message 2 9 Role.student "   ").2.messages = [] ∧
    conv0.last_activity_at = 5 ∧
    (conv0.add_message 2 9 Role.student "   ").2.last_activity_at = 9 :=
  ⟨rfl, rfl, rfl, rfl⟩

/--
C2 amended: on every writable conversation, `add_message` with content that
is empty or whitespace-only fails and appends no message, but not with the
content-validation error — it fails with the `TypeError` raised while
constructing `InvalidChatMessageContentError` with no arguments, and never
with any `InvalidChatMessageContentError` — and the conversation is left
equal to `touch now`: its `last_activity_at` is advanced to `now` because
the source touches before validating the content.
-/
theorem claim_C2_amended_empty_content_fails_but_touches
    (c : Conversation) (id : UUID) (now : Timestamp) (role : Role)
    (content : String)
    (hw : c.status.is_writable = true) (hc : pyStrip content = "") :
    (c.add_message id now role content).1
        = Except.error chatMessageContentCrash ∧
    (∀ (mid : UUID) (r : String),
      (c.add_message id now role content).1
        ≠ Except.error (Err.invalidChatMessageContent mid r)) ∧
    (c.add_message id now role content).2 = c.touch now := by
  have h1 : (c.add_message id now role content).1
        = Except.error chatMessageContentCrash ∧
      (c.add_message id now role content).2 = c.touch now := by
    unfold Conversation.add_message
    rw [hw]
    simp only [Bool.not_true, Bool.false_eq_true, if_false]
    unfold ChatMessage.create_new ChatMessage.validate_content
    rw [hc]
    simp [pyTruthy]
  refine ⟨h1.1, ?_, h1.2⟩
  intro mid r
  rw [h1.1]
  simp [chatMessageContentCrash]

/-- C2 amended witness: the concrete failing call of the counterexample. -/
theorem claim_C2_amended_witness :
    (conv0.add_message 2 9 Role.student "   ").1
        = Except.error chatMessageContentCrash ∧
    (∀ (mid : UUID) (r : String),
      (conv0.add_message 2 9 Role.student "   ").1
        ≠ Except.error (Err.invalidChatMessageContent mid r)) ∧
    (conv0.add_message 2 9 Role.student "   ").2 = conv0.touch 9 :=
  claim_C2_amended_empty_content_fails_but_touches conv0 2 9 Role.student "   "
    (by decide) (by decide)

/--
C3 counterexample: `delete` is an exposed aggregate operation and changes the
status of an ARCHIVED conversation to DELETED, so ARCHIVED is not terminal as
the claim states.
-/
theorem claim_C3_counterexample :
    (conv0.archive 6).status = Status.archived ∧
    ((conv0.archive 6).delete 7).status = Status.deleted ∧
    Status.deleted ≠ Status.archived := by
  decide

/--
C3 amended: `add_message`, `modify_title` and `touch` never change the
status; `archive` and `delete` set ARCHIVED respectively DELETED
unconditionally, regardless of the current status — so besides
ACTIVE → ARCHIVED and ACTIVE → DELETED, the transitions ARCHIVED → DELETED
and DELETED → ARCHIVED are also reachable; a freshly created conversation
starts ACTIVE.
-/
theorem claim_C3_amended_status_transitions (c : Conversation) (now : Timestamp) :
    (∀ (id : UUID) (role : Role) (content : String),
      (c.add_message id now role content).2.status = c.status) ∧
    (∀ new_title : String, (c.modify_title new_title now).2.status = c.status) ∧
    (c.touch now).status = c.status ∧
    (c.archive now).status = Status.archived ∧
    (c.delete now).status = Status.deleted ∧
    (∀ (id student_id : UUID) (title : String) (nl tl : Language)
       (cnew : Conversation),
      Conversation.create_new id student_id title nl tl now = Except.ok cnew →
      cnew.status = Status.active) := by
  refine ⟨?_, ?_, rfl, rfl, rfl, ?_⟩
  · intro id role content
    unfold Conversation.add_message
    split
    · rfl
    · dsimp only
      split <;> simp [Conversation.touch]
  · intro new_title
    unfold Conversation.modify_title
    split
    · rfl
    · dsimp only
      split
      · rfl
      · split <;> simp [Conversation.touch]
  · intro id student_id title nl tl cnew h
    unfold Conversation.create_new at h
    split at h
    · exact absurd h (by simp)
    · dsimp only at h
      split at h
      · exact absurd h (by simp)
      · split at h
        · exact absurd h (by simp)
        · simp only [Except.ok.injEq] at h
          rw [← h]

/-- C3 amended witness: concrete instances of the unconditional transitions. -/
theorem claim_C3_amended_witness :
    ((conv0.archive 6).delete 7).status = Status.deleted ∧
    ((conv0.delete 6).archive 7).status = Status.archived ∧
    conv0.status = Status.active :=
  ⟨(claim_C3_amended_status_transitions (conv0.archive 6) 7).2.2.2.2.1,
   (claim_C3_amended_status_transitions (conv0.delete 6) 7).2.2.2.1,
   (claim_C3_amended_status_transitions conv0 5).2.2.2.2.2 1 10 "Chat" langEn langFr
     conv0 rfl⟩

/--
C5: `Conversation.create_new` fails with the language-pair error whenever
the two languages are equal; otherwise fails with the empty-title error when
the trimmed title is empty and with the too-long error when it exceeds 100
characters ( exactly 100 succeeds ); and otherwise returns an ACTIVE
conversation with an empty message list,
`created_at = last_activity_at = now` and the trimmed title.
-/
theorem claim_C5_create_new_spec (id student_id : UUID) (title : String)
    (native_lang target_lang : Language) (now : Timestamp) :
    (native_lang = target_lang →
      Conversation.create_new id student_id title native_lang target_lang now
        = Except.error (Err.invalidLanguagePair native_lang.code target_lang.code)) ∧
    (native_lang ≠ target_lang → pyStrip title = "" →
      Conversation.create_new id student_id title native_lang target_lang now
        = Except.error (Err.emptyConversationTitle id)) ∧
    (native_lang ≠ target_lang → (pyStrip title).length > 100 →
      Conversation.create_new id student_id title native_lang target_lang now
        = Except.error (Err.conversationTitleTooLong id (pyStrip title).length 100)) ∧
    (native_lang ≠ target_lang → pyStrip title ≠ "" → (pyStrip title).length ≤ 100 →
      Conversation.create_new id student_id title native_lang target_lang now
        = Except.ok
            { id := id
              student_id := student_id
              created_at := now
              last_activity_at := now
              native_lang := native_lang
              target_lang := target_lang
              title := pyStrip title
              status := Status.active
              messages := [] }) :=
  create_new_cases id student_id title native_lang target_lang now

/--
C5 witness: a concrete title of length 100 with surrounding whitespace is
accepted and stored stripped, with all the documented fields.
-/
theorem claim_C5_witness :
    langEn ≠ langFr ∧ pyStrip " Chat " ≠ "" ∧ (pyStrip " Chat ").length ≤ 100 ∧
    Conversation.create_new 1 10 " Chat " langEn langFr 5
      = Except.ok
          { id := 1
            student_id := 10
            created_at := 5
            last_activity_at := 5
            native_lang := langEn
            target_lang := langFr
            title := pyStrip " Chat "
            status := Status.active
            messages := [] } :=
  ⟨by decide, by decide, by decide,
   (claim_C5_create_new_spec 1 10 " Chat " langEn langFr 5).2.2.2
     (by decide) (by decide) (by decide)⟩

/--
C7: `DeleteConversationUseCase.execute` returns, for an ownership mismatch,
exactly the same not-found error ( same resource type and id ) as for a
missing conversation, and leaves the repository — hence the stored
conversation's status — unchanged; when the requester owns the conversation
it soft-deletes it ( status DELETED ) and persists it via `save`.
-/
theorem claim_C7_delete_ownership_indistinguishable (repo : Repo)
    (now : Timestamp) (command : DeleteConversationCommand) :
    (Repo.find_by_id repo command.conversation_id = none →
      DeleteConversationUseCase.execute repo now command
        = (Except.error (Err.resourceNotFound "Conversation" command.conversation_id),
           repo)) ∧
    (∀ conversation : Conversation,
      Repo.find_by_id repo command.conversation_id = some conversation →
      conversation.student_id ≠ command.student_id →
      DeleteConversationUseCase.execute repo now command
        = (Except.error (Err.resourceNotFound "Conversation" command.conversation_id),
           repo)) ∧
    (∀ conversation : Conversation,
      Repo.find_by_id repo command.conversation_id = some conversation →
      conversation.student_id = command.student_id →
      DeleteConversationUseCase.execute repo now command
        = (Except.ok (), Repo.save repo (conversation.delete now)) ∧
      (conversation.delete now).status = Status.deleted) := by
  unfold DeleteConversationUseCase.execute Repo.get_by_id
  refine ⟨?_, ?_, ?_⟩
  · intro h
    rw [h]
  · intro conversation h hown
    rw [h]
    dsimp only
    rw [if_pos hown]
  · intro conversation h hown
    rw [h]
    dsimp only
    rw [if_neg (by simp [hown])]
    exact ⟨rfl, rfl⟩

/--
C7 witness: a requester ( student 99 ) who is not the owner ( student 10 ) of
the stored conversation 7 gets the same not-found error as for a missing id,
with the repository unchanged.
-/
theorem claim_C7_witness :
    DeleteConversationUseCase.execute [convC1] 9 ⟨7, 99⟩
      = (Except.error (Err.resourceNotFound "Conversation" 7), [convC1]) :=
  (claim_C7_delete_ownership_indistinguishable [convC1] 9 ⟨7, 99⟩).2.1 convC1 rfl
    (by decide)

/--
C10: `CreateConversationUseCase.execute` never fails with the empty-title
error, and whenever the command title is absent, empty or whitespace-only
( and the language pair is valid ) it creates and persists a conversation
titled by the default `"New Conversation"`.
-/
theorem claim_C10_default_title (repo : Repo) (conversation_id : UUID)
    (now : Timestamp) (command_dto : CreateConversationCommand) :
    (∀ i : UUID,
      CreateConversationUseCase.execute repo conversation_id now command_dto
        ≠ Except.error (Err.emptyConversationTitle i)) ∧
    ((match command_dto.title with
        | none => True
        | some t => t = "" ∨ pyStrip t = "") →
      command_dto.native_lang ≠ command_dto.target_lang →
      CreateConversationUseCase.execute repo conversation_id now command_dto
        = Except.ok (⟨conversation_id⟩,
            Repo.save repo
              { id := conversation_id
                student_id := command_dto.student_id
                created_at := now
                last_activity_at := now
                native_lang := command_dto.native_lang
                target_lang := command_dto.target_lang
                title := "New Conversation"
                status := Status.active
                messages := [] })) := by
  have hdef : ∀ t : String, pyTruthy (pyStrip t) = true →
      ∀ (i : UUID) (e : Err),
        Conversation.create_new conversation_id command_dto.student_id t
          command_dto.native_lang command_dto.target_lang now = Except.error e →
        e ≠ Err.emptyConversationTitle i := by
    intro t ht i e he hcon
    subst hcon
    rcases create_new_cases conversation_id command_dto.student_id t
      command_dto.native_lang command_dto.target_lang now with ⟨h1, _, h3, h4⟩
    by_cases hlang : command_dto.native_lang = command_dto.target_lang
    · rw [h1 hlang] at he
      simp at he
    · by_cases hlen : (pyStrip t).length > 100
      · rw [h3 hlang hlen] at he
        simp at he
      · rw [h4 hlang ((pyTruthy_eq_true_iff _).mp ht) (by omega)] at he
        simp at he
  constructor
  · intro i
    unfold CreateConversationUseCase.execute
    cases hti : command_dto.title with
    | none =>
      dsimp only
      cases hx : Conversation.create_new conversation_id command_dto.student_id
        "New Conversation" command_dto.native_lang command_dto.target_lang now with
      | error e =>
        intro hcon
        simp only [Except.error.injEq] at hcon
        exact hdef "New Conversation" (by decide) i e hx hcon
      | ok conversation =>
        intro hcon
        simp at hcon
    | some t =>
      dsimp only
      by_cases hg : (pyTruthy t && pyTruthy (pyStrip t)) = true
      · rw [if_pos hg]
        have ht : pyTruthy (pyStrip t) = true := by
          simp only [Bool.and_eq_true] at hg
          exact hg.2
        cases hx : Conversation.create_new conversation_id command_dto.student_id
          t command_dto.native_lang command_dto.target_lang now with
        | error e =>
          intro hcon
          simp only [Except.error.injEq] at hcon
          exact hdef t ht i e hx hcon
        | ok conversation =>
          intro hcon
          simp at hcon
      · rw [if_neg hg]
        cases hx : Conversation.create_new conversation_id command_dto.student_id
          "New Conversation" command_dto.native_lang command_dto.target_lang now with
        | error e =>
          intro hcon
          simp only [Except.error.injEq] at hcon
          exact hdef "New Conversation" (by decide) i e hx hcon
        | ok conversation =>
          intro hcon
          simp at hcon
  · intro hblank hlang
    unfold CreateConversationUseCase.execute
    have htitle :
        (match command_dto.title with
          | some t => if pyTruthy t && pyTruthy (pyStrip t) then t else "New Conversation"
          | none => "New Conversation") = "New Conversation" := by
      cases hti : command_dto.title with
      | none => rfl
      | some t =>
        rw [hti] at hblank
        dsimp only
        rcases hblank with hb | hb
        · rw [if_neg (by simp [hb, pyTruthy])]
        · rw [if_neg (by simp [(pyTruthy_eq_false_iff (pyStrip t)).mpr hb])]
    dsimp only
    rw [htitle]
    have hok := (create_new_cases conversation_id command_dto.student_id
      "New Conversation" command_dto.native_lang command_dto.target_lang now).2.2.2
      hlang (by decide) (by decide)
    have hstrip : pyStrip "New Conversation" = "New Conversation" := by decide
    rw [hstrip] at hok
    rw [hok]

/--
C10 witness: a whitespace-only title with a valid language pair yields a
persisted conversation titled by the default.
-/
theorem claim_C10_witness :
    CreateConversationUseCase.execute [] 3 5
      { student_id := 10, title := some "  ", native_lang := langEn,
        target_lang := langFr }
      = Except.ok (⟨3⟩,
          Repo.save []
            { id := 3
              student_id := 10
              created_at := 5
              last_activity_at := 5
              native_lang := langEn
              target_lang := langFr
              title := "New Conversation"
              status := Status.active
              messages := [] }) :=
  (claim_C10_default_title [] 3 5
    { student_id := 10, title := some "  ", native_lang := langEn,
      target_lang := langFr }).2 (Or.inr (by decide)) (by decide)

/-- Lowercasing an alphabetic character yields a lowercase character. -/
theorem toLower_isLower_of_isAlpha (c : Char)
    (h : (Char.toLower c).isAlpha = true) : (Char.toLower c).isLower = true := by
  unfold Char.toLower at h ⊢
  by_cases hc : c.toNat ≥ 65 ∧ c.toNat ≤ 90
  · rw [if_pos hc] at h ⊢
    obtain ⟨h1, h2⟩ := hc
    set n := c.toNat with hn
    clear hn h
    interval_cases n <;> decide
  · rw [if_neg hc] at h ⊢
    simp only [Char.isAlpha, Char.isUpper, Char.isLower, Bool.or_eq_true,
      Bool.and_eq_true, decide_eq_true_eq] at h ⊢
    rcases h with ⟨h1, h2⟩ | h1
    · exfalso
      apply hc
      constructor
      · exact UInt32.le_toNat_of_le (by decide) h1
      · exact UInt32.toNat_le_of_le (by decide) h2
    · exact h1

/-- Every code point of a stripped string is a code point of the original. -/
theorem mem_of_mem_pyStrip (s : String) (ch : Char)
    (h : ch ∈ (pyStrip s).data) : ch ∈ s.data := by
  unfold pyStrip at h
  simp only [List.mem_reverse] at h
  have h2 : ch ∈ (s.data.dropWhile Char.isWhitespace).reverse :=
    (List.dropWhile_sublist _).subset h
  rw [List.mem_reverse] at h2
  exact (List.dropWhile_sublist _).subset h2

/--
C8: `Language` construction either fails with the invalid-code error or
stores exactly the trimmed, lowercased input; it succeeds precisely when
that normalized string is two alphabetic characters, in which case the
stored code is two lowercase alphabetic characters; and `" FR "` and
`"fr"` construct equal values.
-/
theorem claim_C8_language_normalization (code : String) :
    (Language.create code = Except.ok ⟨pyStrip (pyLower code)⟩ ∨
     Language.create code
        = Except.error (Err.invalidLanguageIsoCode (pyStrip (pyLower code)))) ∧
    ((∃ l, Language.create code = Except.ok l) ↔
      ((pyStrip (pyLower code)).length = 2 ∧
       (pyStrip (pyLower code)).data.all Char.isAlpha = true)) ∧
    (∀ l, Language.create code = Except.ok l →
      l.code = pyStrip (pyLower code) ∧ l.code.length = 2 ∧
      l.code.data.all (fun ch => ch.isAlpha && ch.isLower) = true) ∧
    Language.create " FR " = Language.create "fr" := by
  refine ⟨?_, ?_, ?_, rfl⟩
  · unfold Language.create
    dsimp only
    split
    · right
      rfl
    · left
      rfl
  · unfold Language.create
    dsimp only
    constructor
    · intro ⟨l, hl⟩
      by_cases hcond :
          (!pyIsAlpha (pyStrip (pyLower code))
            || decide ((pyStrip (pyLower code)).length ≠ 2)) = true
      · rw [if_pos hcond] at hl
        simp at hl
      · simp only [Bool.or_eq_true, Bool.not_eq_true', decide_eq_true_eq,
          not_or, Bool.not_eq_false, not_ne_iff] at hcond
        obtain ⟨ha, hlen⟩ := hcond
        refine ⟨hlen, ?_⟩
        unfold pyIsAlpha at ha
        simp only [Bool.and_eq_true] at ha
        exact ha.2
    · intro ⟨hlen, ha⟩
      have hne : (pyStrip (pyLower code)).data ≠ [] := by
        intro hcon
        rw [show (pyStrip (pyLower code)).length
              = (pyStrip (pyLower code)).data.length from rfl, hcon] at hlen
        simp at hlen
      have h1 : pyIsAlpha (pyStrip (pyLower code)) = true := by
        unfold pyIsAlpha
        simp [List.isEmpty_iff, hne, ha]
      rw [if_neg (by simp [h1, hlen])]
      exact ⟨_, rfl⟩
  · intro l hl
    unfold Language.create at hl
    dsimp only at hl
    by_cases hcond :
        (!pyIsAlpha (pyStrip (pyLower code))
          || decide ((pyStrip (pyLower code)).length ≠ 2)) = true
    · rw [if_pos hcond] at hl
      simp at hl
    · rw [if_neg hcond] at hl
      simp only [Except.ok.injEq] at hl
      simp only [Bool.or_eq_true, Bool.not_eq_true', decide_eq_true_eq,
        not_or, Bool.not_eq_false, not_ne_iff] at hcond
      obtain ⟨ha, hlen⟩ := hcond
      unfold pyIsAlpha at ha
      simp only [Bool.and_eq_true] at ha
      refine ⟨by rw [← hl], by rw [← hl]; exact hlen, ?_⟩
      rw [← hl]
      dsimp only
      rw [List.all_eq_true]
      intro ch hch
      have halpha : ch.isAlpha = true := by
        rw [List.all_eq_true] at ha
        exact ha.2 ch hch
      have hmem : ch ∈ (pyLower code).data := mem_of_mem_pyStrip _ _ hch
      unfold pyLower at hmem
      simp only [List.mem_map] at hmem
      obtain ⟨ch0, _, hch0⟩ := hmem
      subst hch0
      simp only [Bool.and_eq_true]
      exact ⟨halpha, toLower_isLower_of_isAlpha ch0 halpha⟩

/--
C8 witness: the concrete code `" EN "` is accepted and stored as the two
lowercase alphabetic characters `"en"`.
-/
theorem claim_C8_witness :
    Language.create " EN " = Except.ok ⟨ "en" ⟩ ∧
    ( "en" : String ).length = 2 ∧
    ( "en" : String ).data.all (fun ch => ch.isAlpha && ch.isLower) = true :=
  ⟨rfl, ((claim_C8_language_normalization " EN ").2.2.1 ⟨ "en" ⟩ rfl).2⟩

/--
C1 ( failing run of the code as wired ): on an ACTIVE conversation with 2
prior messages and a generation port returning the fixed text `"Fine!"`,
`SendMessageUseCase.execute` as wired crashes resolving `Role.STUDENT` on
the exported SYSTEM / USER / ASSISTANT enum — before any message is appended
and before the generation port is invoked ( the call list is empty and the
repository is untouched ) — instead of performing the exchange the claim
describes.
-/
theorem claim_C1_wired_send_message_crashes :
    SendMessageUseCase.executeWired (fixedProvider "Fine!") [convC1] 103 3 104 4 cmdC1
      = (Except.error (Err.attributeError "STUDENT"), []) ∧
    exportedRoleMember "STUDENT" = none ∧
    exportedRoleMember "TEACHER" = none ∧
    convC1.status = Status.active ∧
    convC1.messages.length = 2 :=
  ⟨rfl, rfl, rfl, rfl, rfl⟩

/--
The behavior C1 describes, which holds of the orchestration once the role
identifiers resolve on the STUDENT / TEACHER enum ( `chat_options.py` ) that
the use-case code and the repository's test fixtures name: the conversation
ends with 4 messages, the second-to-last is the STUDENT message with the
sent text, the last is the TEACHER message with the generated text, and the
generation port was invoked exactly once, with the 2 original messages plus
the new student message as history.
-/
theorem send_message_intended_behavior_on_example :
    SendMessageUseCase.execute (fixedProvider "Fine!") [convC1] 103 3 104 4 cmdC1
      = (Except.ok
          ({ message_id := 104, student_message_id := 103, teacher_message := "Fine!" },
           [{ convC1 with
                last_activity_at := 4
                messages := [msg1, msg2, studentMsgC1, teacherMsgC1] }]),
         [{ history := [msg1, msg2, studentMsgC1]
            teacher_profile :=
              { creativity_level := CreativityLevel.moderate
                generation_style := GenerationStyle.conversational }
            native_lang := langFr
            target_lang := langEn }]) ∧
    studentMsgC1.role = Role.student ∧
    studentMsgC1.content = cmdC1.student_message ∧
    teacherMsgC1.role = Role.teacher ∧
    teacherMsgC1.content = "Fine!" :=
  ⟨rfl, rfl, rfl, rfl, rfl⟩

/-- The reader's singleton allowed-status list recognizes exactly ACTIVE. -/
theorem contains_active_iff (s : Status) :
    ([Status.active].contains s = true) ↔ s = Status.active := by
  cases s <;> decide

/--
C9: for a repository of conversations all owned by one student and all
ACTIVE, listing with `(limit, offset) = (L, O)` returns exactly
`min L (N - O)` summaries ( the natural-number form of
`max 0 (min L (N - O))` ); in general the result never contains a DELETED
summary and excludes ARCHIVED ones ( every summary is `"active"` ), is
ordered newest-created-first, and two windows with `O1 + L1 ≤ O2` over a
storage with distinct ids are disjoint by conversation id.
-/
theorem claim_C9_pagination (repo : Repo) (sid : UUID) (L O L1 O1 L2 O2 : Nat) :
    ((∀ c ∈ repo, c.student_id = sid ∧ c.status = Status.active) →
      (ListStudentConversationsUseCase.execute repo ⟨sid, L, O⟩).length
        = min L (repo.length - O)) ∧
    (∀ s ∈ ListStudentConversationsUseCase.execute repo ⟨sid, L, O⟩,
      s.status = "active") ∧
    List.Pairwise (fun a b => b.created_at ≤ a.created_at)
      (ListStudentConversationsUseCase.execute repo ⟨sid, L, O⟩) ∧
    ((repo.map Conversation.id).Nodup → O1 + L1 ≤ O2 →
      ∀ i : UUID,
        i ∈ (ListStudentConversationsUseCase.execute repo ⟨sid, L1, O1⟩).map
              ConversationSummary.conversation_id →
        i ∉ (ListStudentConversationsUseCase.execute repo ⟨sid, L2, O2⟩).map
              ConversationSummary.conversation_id) := by
  have hunfold : ∀ (l o : Nat),
      ListStudentConversationsUseCase.execute repo ⟨sid, l, o⟩
        = ((((repo.filter (fun conv => decide (conv.student_id = sid)
              && ([Status.active].contains conv.status))).mergeSort
              (fun a b => decide (b.created_at ≤ a.created_at))).drop o).take l).map
            Repo.to_summary := by
    intro l o
    rfl
  rw [hunfold, hunfold, hunfold]
  set p : Conversation → Bool := fun conv => decide (conv.student_id = sid)
    && ([Status.active].contains conv.status) with hp
  set le : Conversation → Conversation → Bool :=
    fun a b => decide (b.created_at ≤ a.created_at) with hle
  set sorted : List Conversation := (repo.filter p).mergeSort le with hsorted
  have hperm : sorted.Perm (repo.filter p) := by
    rw [hsorted]
    exact List.mergeSort_perm (repo.filter p) le
  refine ⟨?_, ?_, ?_, ?_⟩
  · intro hall
    have hfilter : repo.filter p = repo := by
      rw [List.filter_eq_self]
      intro c hc
      rw [hp]
      simp only [Bool.and_eq_true, decide_eq_true_eq]
      exact ⟨(hall c hc).1, (contains_active_iff _).mpr (hall c hc).2⟩
    rw [List.length_map, List.length_take, List.length_drop,
      hperm.length_eq, hfilter]
  · intro s hs
    simp only [List.mem_map] at hs
    obtain ⟨c, hc, hcs⟩ := hs
    have hc2 : c ∈ sorted :=
      (List.drop_subset _ _) ((List.take_subset _ _) hc)
    have hc3 : c ∈ repo.filter p := hperm.mem_iff.mp hc2
    rw [List.mem_filter, hp] at hc3
    have hactive : c.status = Status.active := by
      have hpc := hc3.2
      simp only [Bool.and_eq_true] at hpc
      exact (contains_active_iff _).mp hpc.2
    rw [← hcs]
    unfold Repo.to_summary
    dsimp only
    rw [hactive]
    rfl
  · have htrans : ∀ a b c : Conversation,
        le a b = true → le b c = true → le a c = true := by
      intro a b c hab hbc
      simp only [hle, decide_eq_true_eq] at hab hbc ⊢
      exact Nat.le_trans hbc hab
    have htotal : ∀ a b : Conversation, (le a b || le b a) = true := by
      intro a b
      simp only [hle, Bool.or_eq_true, decide_eq_true_eq]
      exact Nat.le_total _ _
    have hsort : List.Pairwise (fun a b => le a b = true) sorted := by
      rw [hsorted]
      exact List.sorted_mergeSort htrans htotal (repo.filter p)
    have hpag : List.Pairwise (fun a b => le a b = true) ((sorted.drop O).take L) :=
      List.Pairwise.sublist
        ((List.take_sublist _ _).trans (List.drop_sublist _ _)) hsort
    rw [List.pairwise_map]
    refine hpag.imp ?_
    intro a b hab
    simp only [hle, decide_eq_true_eq] at hab
    exact hab
  · intro hnodup hwin i h1 h2
    rw [List.map_map] at h1 h2
    have hids : ∀ (l o : Nat),
        (((sorted.drop o).take l).map
          (ConversationSummary.conversation_id ∘ Repo.to_summary))
          = ((sorted.map Conversation.id).drop o).take l := by
      intro l o
      rw [List.map_take, List.map_drop]
      rfl
    rw [hids] at h1 h2
    have hidnodup : (sorted.map Conversation.id).Nodup := by
      have hsub : (repo.filter p).Sublist repo := List.filter_sublist repo
      have hfnodup : ((repo.filter p).map Conversation.id).Nodup :=
        (hsub.map Conversation.id).nodup hnodup
      exact ((hperm.map Conversation.id).symm.nodup) hfnodup
    have hkey : ((sorted.map Conversation.id).drop O1).take L1
        = ((sorted.map Conversation.id).take (O1 + L1)).drop O1 := by
      rw [List.drop_take]
      congr 1
      omega
    rw [hkey] at h1
    have hm1 : i ∈ (sorted.map Conversation.id).take (O1 + L1) :=
      (List.drop_subset _ _) h1
    have hm2 : i ∈ (sorted.map Conversation.id).drop O2 :=
      (List.take_subset _ _) h2
    exact (List.disjoint_take_drop hidnodup hwin) hm1 hm2

/--
C9 witness: over a concrete storage of two ACTIVE conversations of one
student, the window `(limit 1, offset 1)` holds exactly
`min 1 (2 - 1) = 1` summary, and the windows `(1, 0)` and `(5, 1)` are
disjoint by conversation id.
-/
theorem claim_C9_witness :
    (ListStudentConversationsUseCase.execute [conv0, convC1] ⟨10, 1, 1⟩).length
      = min 1 ([conv0, convC1].length - 1) ∧
    (∀ i : UUID,
      i ∈ (ListStudentConversationsUseCase.execute [conv0, convC1] ⟨10, 1, 0⟩).map
            ConversationSummary.conversation_id →
      i ∉ (ListStudentConversationsUseCase.execute [conv0, convC1] ⟨10, 5, 1⟩).map
            ConversationSummary.conversation_id) :=
  ⟨(claim_C9_pagination [conv0, convC1] 10 1 1 1 0 5 1).1 (by decide),
   (claim_C9_pagination [conv0, convC1] 10 1 1 1 0 5 1).2.2.2 (by decide) (by decide)⟩

end PolyglotAI
